import Mathlib

/-!
Verification of the resilient RPC client, session dispatcher and persistence
layer of the bala_vs_plugin VSCode extension.

The development shallowly embeds the TypeScript source:

* `src/src/services/OllamaService.ts` — retry predicate, timeout wrapper,
  circuit breaker, chat completion, code-analysis error handling;
* `src/src/services/HuggingFaceService.ts` — retry predicate, timeout wrapper,
  circuit breaker, model fallback chain;
* `ChatService` (unnamed part_002) — `processMessage`, `trimSessionHistory`,
  `saveSession`, `createSession`;
* `ContextStore` (unnamed part_003) — conversation-history persistence with
  the JSON replacer/reviver for `vscode.Uri` values.

JavaScript strings, numbers and `Date`/`Uri` objects are modelled explicitly;
asynchronous calls are modelled by passing the settled outcome of the awaited
operation as an explicit value.
-/

/-! ## JavaScript string primitives -/

/-- Model of `String.prototype.toLowerCase` restricted to the ASCII case
mapping, which is all the source's error-message comparisons rely on. -/
def jsToLower (s : String) : String := String.mk (s.toList.map Char.toLower)

/-- Model of `String.prototype.includes`: `pat` occurs as a contiguous
substring of `s` (the empty pattern always occurs). -/
def jsIncludes (s pat : String) : Bool :=
  (List.range (s.length + 1)).any fun i => pat.toList.isPrefixOf (s.toList.drop i)

/-- Model of `String.prototype.trim` (whitespace stripped from both ends). -/
def jsTrim (s : String) : String :=
  String.mk (((s.toList.dropWhile (fun c => c.isWhitespace)).reverse.dropWhile
    (fun c => c.isWhitespace)).reverse)

/-! ## Retry predicates and the timeout wrapper (OllamaService / HuggingFaceService) -/

/-- `OllamaService.shouldRetry` (OllamaService.ts lines 107-116): the message is
lower-cased; an error is retryable when it is NOT a timeout (`'timed out'`) and
mentions a network-class failure. -/
def ollamaShouldRetry (errorMessage : String) : Bool :=
  let m := jsToLower errorMessage
  !(jsIncludes m "timed out") &&
    (jsIncludes m "network" || jsIncludes m "econnrefused" ||
     jsIncludes m "502" || jsIncludes m "503" || jsIncludes m "504")

/-- `HuggingFaceService.shouldRetry` (HuggingFaceService.ts lines 78-86): the
message is lower-cased; note that `'timeout'` is one of the RETRYABLE
substrings here, unlike the Ollama variant. -/
def hfShouldRetry (errorMessage : String) : Bool :=
  let m := jsToLower errorMessage
  jsIncludes m "timeout" || jsIncludes m "network" ||
  jsIncludes m "502" || jsIncludes m "503" || jsIncludes m "504" ||
  jsIncludes m "overloaded"

/-- The message carried by the rejection that both services' `withTimeout`
wrappers construct when the timeout promise wins the race:
`` `${operation} timed out after ${timeoutMs}ms` ``. -/
def timeoutMessage (operation : String) (timeoutMs : Nat) : String :=
  operation ++ " timed out after " ++ toString timeoutMs ++ "ms"

/-- Timeout/retry configuration of a service instance (`maxRetries`,
`baseRetryDelay`) as read in both constructors. -/
structure RetryConfig where
  maxRetries : Nat
  baseRetryDelay : ℚ

/-- Model of `withTimeout` (OllamaService.ts lines 72-99, HuggingFaceService.ts
lines 42-70).  The wrapper receives ONE already-started promise and, on a
retryable failure, re-awaits THAT SAME promise after a backoff delay
(`return this.withTimeout(promise, newTimeout, operation, retryCount + 1)`); a
settled JavaScript promise yields the identical outcome on every await, so the
underlying operation is modelled by its fixed settled outcome `settled`, which
the recursion carries unchanged exactly as the source carries `promise`.  The
function returns the final outcome together with the list of backoff delays
performed (`baseRetryDelay * 2 ^ retryCount` each); the per-attempt timeout
grows by the factor 1.5 capped at 60000 ms, as in the source. -/
def withTimeout {α : Type} (cfg : RetryConfig) (shouldRetry : String → Bool)
    (settled : Except String α) (timeoutMs : ℚ) (retryCount : Nat) :
    Except String α × List ℚ :=
  match settled with
  | .ok v => (.ok v, [])
  | .error e =>
      if h : retryCount < cfg.maxRetries then
        if shouldRetry e then
          let rest := withTimeout cfg shouldRetry (.error e)
            (min (timeoutMs * 1.5) 60000) (retryCount + 1)
          (rest.1, cfg.baseRetryDelay * 2 ^ retryCount :: rest.2)
        else (.error e, [])
      else (.error e, [])
termination_by cfg.maxRetries - retryCount
decreasing_by omega

/-! ## Circuit breaker -/

/-- The process-wide circuit state of a service instance: the availability flag
and the last-failure timestamp (both services hold `isApiAvailable` and
`lastFailureTime`, milliseconds since the epoch modelled as `Int`). -/
structure CircuitBreaker where
  isApiAvailable : Bool
  lastFailureTime : Int
deriving DecidableEq, Repr

/-- `OllamaService.shouldAttemptApiCall` (lines 154-166): if available, attempt;
otherwise lazily flip back to available once `now - lastFailureTime >
retryAfterMs`.  Returns the (possibly updated) breaker and the decision. -/
def shouldAttemptApiCall (st : CircuitBreaker) (retryAfterMs now : Int) :
    CircuitBreaker × Bool :=
  if st.isApiAvailable then (st, true)
  else if now - st.lastFailureTime > retryAfterMs then
    ({ st with isApiAvailable := true }, true)
  else (st, false)

/-- `markApiUnavailable` (both services): flag false and `now` recorded, always
updated together. -/
def markApiUnavailable (now : Int) : CircuitBreaker :=
  { isApiAvailable := false, lastFailureTime := now }

/-- `HuggingFaceService.shouldAttemptApiCall` (lines 89-105): additionally fails
fast when the configured API key is empty or whitespace. -/
def hfShouldAttemptApiCall (apiKey : String) (st : CircuitBreaker)
    (retryAfterMs now : Int) : CircuitBreaker × Bool :=
  if jsTrim apiKey = "" then (st, false)
  else shouldAttemptApiCall st retryAfterMs now

/-- `OllamaService.chatCompletion` (lines 285-325) restricted to its breaker
interaction: the breaker is checked (performing the lazy reset), the RPC
outcome — modelled by the settled value `rpc` of the awaited network call — is
returned on success, and any error is wrapped by the outer catch as
`` `Chat completion failed: ${error}` ``.  The fail-fast branch throws inside
the same try, so its message is also wrapped.  Response formatting
(`formatChatResponse`) does not touch the breaker and is modelled as the
identity on the carried response value. -/
def ollamaChatCompletion {α : Type} (st : CircuitBreaker) (retryAfterMs now : Int)
    (rpc : Except String α) : CircuitBreaker × Except String α :=
  let checked := shouldAttemptApiCall st retryAfterMs now
  if checked.2 then
    match rpc with
    | .ok r => (checked.1, .ok r)
    | .error e => (checked.1, .error ("Chat completion failed: " ++ e))
  else
    (checked.1,
     .error "Chat completion failed: Ollama API temporarily unavailable.")

/-- The catch block of `OllamaService.analyzeCode` (lines 209-230), the place
where this service classifies RPC failures: timeouts re-throw with guidance,
connection errors (`ECONNREFUSED` / `fetch failed`) call `markApiUnavailable`,
authentication errors (`401` / `Unauthorized`) re-throw WITHOUT touching the
breaker, anything else is wrapped.  Returns the breaker afterwards and the
message thrown.  The string checks are case-sensitive in the source. -/
def ollamaAnalyzeCodeCatch (st : CircuitBreaker) (now : Int)
    (baseURL timeoutSuggestions : String) (dynamicTimeout : Int)
    (errMsg : String) : CircuitBreaker × String :=
  if jsIncludes errMsg "timed out" then
    (st, "Code analysis timed out after " ++ toString dynamicTimeout ++ "ms. " ++
      timeoutSuggestions)
  else if jsIncludes errMsg "ECONNREFUSED" || jsIncludes errMsg "fetch failed" then
    (markApiUnavailable now,
     "Cannot connect to Ollama server at " ++ baseURL ++
       ". Please check the server is running and accessible.")
  else if jsIncludes errMsg "401" || jsIncludes errMsg "Unauthorized" then
    (st, "Ollama server requires authentication. Please configure your API key in settings.")
  else
    (st, "AI analysis failed: " ++ errMsg)

/-- Authentication-error test of `HuggingFaceService.chatCompletion`
(lines 327-330). -/
def hfIsAuthError (m : String) : Bool :=
  jsIncludes m "Invalid username or password" || jsIncludes m "Invalid credentials" ||
  jsIncludes m "401" || jsIncludes m "Unauthorized"

/-- Rate-limit test of `HuggingFaceService.chatCompletion` (line 336). -/
def hfIsRateLimitError (m : String) : Bool :=
  jsIncludes m "429" || jsIncludes m "rate limit"

/-- Error thrown by `HuggingFaceService.chatCompletion` on an authentication
failure. -/
def hfAuthErrorText : String :=
  "HuggingFace API authentication failed. Your API key is invalid or expired."

/-- Error thrown by `HuggingFaceService.chatCompletion` on a rate-limit
failure. -/
def hfRateLimitErrorText : String :=
  "HuggingFace API rate limit exceeded. Please try again later."

/-- The model fallback loop of `HuggingFaceService.chatCompletion`
(lines 258-353).  `attempt m` is the settled outcome of the (timeout-wrapped)
call for model `m`.  On success the loop returns; on an authentication or
rate-limit error it calls `markApiUnavailable` and throws without trying
further models; on the last model it throws the aggregate error; otherwise it
continues with the next model.  The third component counts how many models
were actually attempted. -/
def hfTryModels {α : Type} (st : CircuitBreaker) (now : Int)
    (attempt : String → Except String α) :
    List String → CircuitBreaker × Except String α × Nat
  | [] => (st, .error "All models in fallback chain failed", 0)
  | m :: rest =>
    match attempt m with
    | .ok r => (st, .ok r, 1)
    | .error e =>
      if hfIsAuthError e then
        (markApiUnavailable now, .error hfAuthErrorText, 1)
      else if hfIsRateLimitError e then
        (markApiUnavailable now, .error hfRateLimitErrorText, 1)
      else if rest.isEmpty then
        (st, .error ("All fallback models failed. Last error: " ++ e), 1)
      else
        let r := hfTryModels st now attempt rest
        (r.1, r.2.1, r.2.2 + 1)

/-- `HuggingFaceService.chatCompletion` (lines 218-359) restricted to breaker
and chain behaviour: breaker precheck (with the API-key fail-fast), then the
fallback loop. -/
def hfChatCompletion {α : Type} (apiKey : String) (st : CircuitBreaker)
    (retryAfterMs now : Int) (models : List String)
    (attempt : String → Except String α) :
    CircuitBreaker × Except String α × Nat :=
  let checked := hfShouldAttemptApiCall apiKey st retryAfterMs now
  if checked.2 then hfTryModels checked.1 now attempt models
  else (checked.1, .error "Chat completion failed: HuggingFace API unavailable.", 0)

/-! ## Session data model (ChatService / types) -/

/-- Components of a `vscode.Uri` value as carried through serialization. -/
structure MUri where
  scheme : String
  authority : String
  path : String
  query : String
  fragment : String
deriving DecidableEq, Repr

/-- `ChatContext` (types): every field optional; `none` models an absent key. -/
structure ChatContext where
  activeFile : Option MUri := none
  selectedText : Option String := none
  workspaceFiles : Option (List MUri) := none
deriving DecidableEq, Repr

/-- `ChatMessageMetadata` (types), restricted to the fields the modelled code
paths write: the raw error text and the confidence score. -/
structure ChatMessageMetadata where
  error : Option String := none
  confidence : Option ℚ := none
deriving DecidableEq, Repr

/-- `ChatMessage` (types): role (`type`) is one of `user`, `assistant`,
`system`; the timestamp is a `Date`, modelled by epoch milliseconds. -/
structure ChatMessage where
  id : String
  type : String
  content : String
  timestamp : Int
  context : Option ChatContext := none
  metadata : Option ChatMessageMetadata := none
deriving DecidableEq, Repr

/-- `ChatSession` (types). -/
structure ChatSession where
  id : String
  messages : List ChatMessage
  context : ChatContext
  createdAt : Int
  updatedAt : Int
  title : Option String := none
deriving DecidableEq, Repr

/-- The shallow merge `{ ...session.context, ...context }` of
`ChatService.processMessage` (line 628): keys present in the new context
overwrite, absent keys keep the old value. -/
def mergeContext (old new : ChatContext) : ChatContext :=
  { activeFile := new.activeFile.orElse fun _ => old.activeFile,
    selectedText := new.selectedText.orElse fun _ => old.selectedText,
    workspaceFiles := new.workspaceFiles.orElse fun _ => old.workspaceFiles }

/-- `ChatService.maxHistoryLength` (part_002 line 540), a constant 50 in the
source. -/
def maxHistoryLength : Nat := 50

/-- `ChatService.trimSessionHistory` (part_002 lines 1213-1224): when the
history exceeds `maxHistoryLength`, keep the first message followed by the
most recent `maxHistoryLength - 1` messages (`messages.slice(-maxHistoryLength
+ 1)` is the last 49 elements, modelled by dropping all but the last 49). -/
def trimSessionHistory (messages : List ChatMessage) : List ChatMessage :=
  if messages.length > maxHistoryLength then
    match messages with
    | [] => []
    | first :: _ =>
        first :: messages.drop (messages.length - (maxHistoryLength - 1))
  else messages

/-- The user message constructed by `ChatService.processMessage`
(lines 631-637). -/
def mkUserMessage (id content : String) (now : Int) (ctx : ChatContext) :
    ChatMessage :=
  { id := id, type := "user", content := content, timestamp := now,
    context := some ctx }

/-- The assistant error message constructed by the catch block of
`ChatService.processMessage` (lines 666-675): the content explains the error
and `metadata.error` records the raw error text. -/
def mkErrorMessage (id errText : String) (now : Int) (ctx : ChatContext) :
    ChatMessage :=
  { id := id, type := "assistant",
    content := "I apologize, but I encountered an error: " ++ errText,
    timestamp := now, context := some ctx,
    metadata := some { error := some errText } }

/-- `ChatService.processMessage` (part_002 lines 617-682).  The session context
is shallow-merged, the user message is appended, then the downstream call
(command handler or conversational path) runs on the session as it then
stands; `downstream` is the settled outcome of that call as a function of that
session.  On success the assistant message is appended and the history
trimmed; on a caught error the error message is appended WITHOUT trimming.
`saveSession` swallows its own errors (see `chatSaveSession`) and does not
alter the message list, so it is elided here.  Fresh message identifiers and
timestamps enter as parameters. -/
def processMessage (session : ChatSession) (content : String) (ctx : ChatContext)
    (userMessageId : String) (now : Int)
    (downstream : ChatSession → Except String ChatMessage)
    (errorMessageId : String) (errNow : Int) : ChatSession × ChatMessage :=
  let session1 := { session with context := mergeContext session.context ctx }
  let userMessage := mkUserMessage userMessageId content now ctx
  let session2 := { session1 with messages := session1.messages ++ [userMessage] }
  match downstream session2 with
  | .ok assistantMessage =>
      let session3 := { session2 with
        messages := trimSessionHistory (session2.messages ++ [assistantMessage]) }
      (session3, assistantMessage)
  | .error e =>
      let errorMessage := mkErrorMessage errorMessageId e errNow ctx
      ({ session2 with messages := session2.messages ++ [errorMessage] }, errorMessage)

/-- A schematic stored message used for concrete instances. -/
def dummyMessage (i : Nat) : ChatMessage :=
  { id := toString i, type := "user", content := "m", timestamp := 0 }

/-- A session already holding exactly `maxHistoryLength` (50) messages. -/
def fullSession : ChatSession :=
  { id := "s", messages := (List.range 50).map dummyMessage, context := {},
    createdAt := 0, updatedAt := 0 }

/-! ## Request clamping (chatCompletion request construction) -/

/-- JavaScript `x || d` on an optional numeric field: the default replaces both
an absent value and the falsy number 0. -/
def jsNumOr (x : Option ℚ) (dflt : ℚ) : ℚ :=
  match x with
  | none => dflt
  | some v => if v = 0 then dflt else v

/-- Temperature sent by `OllamaService.chatCompletion` (line 308):
`Math.min(request.temperature || 0.7, 0.8)`. -/
def ollamaSentTemperature (t : Option ℚ) : ℚ := min (jsNumOr t 0.7) 0.8

/-- Max tokens sent by `OllamaService.chatCompletion` (line 309):
`Math.min(request.max_tokens || 1000, 1500)`. -/
def ollamaSentMaxTokens (m : Option ℚ) : ℚ := min (jsNumOr m 1000) 1500

/-- Temperature sent by `HuggingFaceService.chatCompletion` (line 274):
`Math.min(request.temperature || 0.7, 0.8)`. -/
def hfSentTemperature (t : Option ℚ) : ℚ := min (jsNumOr t 0.7) 0.8

/-- Max tokens sent by `HuggingFaceService.chatCompletion` (line 275):
`Math.min(request.max_tokens || 1000, 500)`. -/
def hfSentMaxTokens (m : Option ℚ) : ℚ := min (jsNumOr m 1000) 500

/-! ## JSON persistence of conversation histories (ContextStore) -/

/-- JavaScript values as they appear in a session object: primitives, `Date`
objects, `vscode.Uri` objects (a JS object carrying `scheme`, `authority`,
`path`, `query`, `fragment`), arrays and plain objects. -/
inductive JsValue where
  | jnull : JsValue
  | jbool : Bool → JsValue
  | jnum : ℚ → JsValue
  | jstr : String → JsValue
  | jdate : Int → JsValue
  | juri : String → String → String → String → String → JsValue
  | jarr : List JsValue → JsValue
  | jobj : List (String × JsValue) → JsValue

/-- Abstract injective stand-in for `Date.prototype.toISOString`; the exact
calendar rendering is immaterial, only that a serialized `Date` becomes a
string. -/
def dateToISOString (t : Int) : String := "Date(" ++ toString t ++ ")"

mutual
/-- The serialization pass of `ContextStore.storeConversationHistory`
(part_003 lines 387-400): `JSON.stringify` first applies `Date.toJSON`
(a `Date` becomes its ISO string) and then the replacer, which rewrites any
object carrying a truthy `scheme` — a `vscode.Uri` — into a tagged plain
object `{ $type: 'vscode.Uri', scheme, authority, path, query, fragment }`. -/
def jsonReplace : JsValue → JsValue
  | .jnull => .jnull
  | .jbool b => .jbool b
  | .jnum q => .jnum q
  | .jstr s => .jstr s
  | .jdate t => .jstr (dateToISOString t)
  | .juri s a p q f =>
      .jobj [("$type", .jstr "vscode.Uri"), ("scheme", .jstr s),
             ("authority", .jstr a), ("path", .jstr p), ("query", .jstr q),
             ("fragment", .jstr f)]
  | .jarr xs => .jarr (jsonReplaceList xs)
  | .jobj fs => .jobj (jsonReplaceFields fs)

/-- Elementwise `jsonReplace` over an array. -/
def jsonReplaceList : List JsValue → List JsValue
  | [] => []
  | x :: xs => jsonReplace x :: jsonReplaceList xs

/-- Fieldwise `jsonReplace` over an object. -/
def jsonReplaceFields : List (String × JsValue) → List (String × JsValue)
  | [] => []
  | (k, v) :: fs => (k, jsonReplace v) :: jsonReplaceFields fs
end

/-- Property access on a parsed JSON object. -/
def jsonLookup (fields : List (String × JsValue)) (k : String) : Option JsValue :=
  (fields.find? (fun p => p.1 == k)).map Prod.snd

/-- The reviver's tag test `value.$type === 'vscode.Uri'`. -/
def isUriTag : Option JsValue → Bool
  | some (.jstr s) => s == "vscode.Uri"
  | _ => false

/-- String extraction used when the reviver rebuilds a `vscode.Uri` from its
components. -/
def jsStringOf : Option JsValue → String
  | some (.jstr s) => s
  | _ => ""

mutual
/-- The parse pass of `ContextStore.getConversationHistory` (part_003
lines 410-434): `JSON.parse` with a reviver that rebuilds a `vscode.Uri` from
any object tagged `$type: 'vscode.Uri'` and leaves every other value as the
plain parsed JSON — in particular, serialized `Date` strings stay strings. -/
def jsonRevive : JsValue → JsValue
  | .jnull => .jnull
  | .jbool b => .jbool b
  | .jnum q => .jnum q
  | .jstr s => .jstr s
  | .jdate t => .jdate t
  | .juri s a p q f => .juri s a p q f
  | .jarr xs => .jarr (jsonReviveList xs)
  | .jobj fs =>
      let revived := jsonReviveFields fs
      if isUriTag (jsonLookup revived "$type") then
        .juri (jsStringOf (jsonLookup revived "scheme"))
          (jsStringOf (jsonLookup revived "authority"))
          (jsStringOf (jsonLookup revived "path"))
          (jsStringOf (jsonLookup revived "query"))
          (jsStringOf (jsonLookup revived "fragment"))
      else .jobj revived

/-- Elementwise `jsonRevive` over an array. -/
def jsonReviveList : List JsValue → List JsValue
  | [] => []
  | x :: xs => jsonRevive x :: jsonReviveList xs

/-- Fieldwise `jsonRevive` over an object. -/
def jsonReviveFields : List (String × JsValue) → List (String × JsValue)
  | [] => []
  | (k, v) :: fs => (k, jsonRevive v) :: jsonReviveFields fs
end

/-- Store followed by load: stringify (with `Date.toJSON` and the Uri replacer)
then parse (with the Uri reviver). -/
def jsonRoundTrip (v : JsValue) : JsValue := jsonRevive (jsonReplace v)

mutual
/-- The value transformation that replaces every `Date` by its ISO string and
leaves everything else — in particular every `vscode.Uri` — unchanged. -/
def eraseDates : JsValue → JsValue
  | .jnull => .jnull
  | .jbool b => .jbool b
  | .jnum q => .jnum q
  | .jstr s => .jstr s
  | .jdate t => .jstr (dateToISOString t)
  | .juri s a p q f => .juri s a p q f
  | .jarr xs => .jarr (eraseDatesList xs)
  | .jobj fs => .jobj (eraseDatesFields fs)

/-- Elementwise `eraseDates` over an array. -/
def eraseDatesList : List JsValue → List JsValue
  | [] => []
  | x :: xs => eraseDates x :: eraseDatesList xs

/-- Fieldwise `eraseDates` over an object. -/
def eraseDatesFields : List (String × JsValue) → List (String × JsValue)
  | [] => []
  | (k, v) :: fs => (k, eraseDates v) :: eraseDatesFields fs
end

/-- The runtime JS value of a `vscode.Uri`. -/
def encodeUri (u : MUri) : JsValue :=
  .juri u.scheme u.authority u.path u.query u.fragment

/-- An optional object property: an absent TypeScript optional field produces
no key (and `JSON.stringify` drops `undefined`-valued properties). -/
def encodeOptField (k : String) (v : Option JsValue) : List (String × JsValue) :=
  match v with
  | none => []
  | some x => [(k, x)]

/-- The runtime JS value of a `ChatContext`. -/
def encodeContext (c : ChatContext) : JsValue :=
  .jobj (encodeOptField "activeFile" (c.activeFile.map encodeUri) ++
         encodeOptField "selectedText" (c.selectedText.map JsValue.jstr) ++
         encodeOptField "workspaceFiles"
           (c.workspaceFiles.map (fun l => JsValue.jarr (l.map encodeUri))))

/-- The runtime JS value of a `ChatMessageMetadata`. -/
def encodeMetadata (md : ChatMessageMetadata) : JsValue :=
  .jobj (encodeOptField "error" (md.error.map JsValue.jstr) ++
         encodeOptField "confidence" (md.confidence.map JsValue.jnum))

/-- The runtime JS value of a `ChatMessage`: the timestamp is a live `Date`
object. -/
def encodeMessage (m : ChatMessage) : JsValue :=
  .jobj ([("id", JsValue.jstr m.id), ("type", JsValue.jstr m.type),
          ("content", JsValue.jstr m.content),
          ("timestamp", JsValue.jdate m.timestamp)] ++
         encodeOptField "context" (m.context.map encodeContext) ++
         encodeOptField "metadata" (m.metadata.map encodeMetadata))

/-- The `ConversationHistory` object built by `ChatService.saveSession`
(part_002 lines 579-586) from a session, a generated summary and the new
`updatedAt` timestamp. -/
def encodeHistory (s : ChatSession) (summary : String) (updatedAt : Int) : JsValue :=
  .jobj [("sessionId", JsValue.jstr s.id),
         ("messages", JsValue.jarr (s.messages.map encodeMessage)),
         ("context", encodeContext s.context),
         ("summary", JsValue.jstr summary),
         ("createdAt", JsValue.jdate s.createdAt),
         ("lastUpdated", JsValue.jdate updatedAt)]

/-- The history as it comes back from
`storeConversationHistory` followed by `getConversationHistory`. -/
def storedHistory (s : ChatSession) (summary : String) (updatedAt : Int) : JsValue :=
  jsonRoundTrip (encodeHistory s summary updatedAt)

/-- Field access on the reloaded history, as `ChatService.loadSession`
(part_002 lines 594-614) performs it. -/
def loadedField (s : ChatSession) (summary : String) (updatedAt : Int)
    (k : String) : Option JsValue :=
  match storedHistory s summary updatedAt with
  | .jobj fields => jsonLookup fields k
  | _ => none

/-- The reloaded session's message list (`loadSession` sets
`messages := history.messages`). -/
def loadedMessages (s : ChatSession) (summary : String) (updatedAt : Int) :
    Option JsValue :=
  loadedField s summary updatedAt "messages"

/-- The reloaded session's context (`loadSession` sets
`context := history.context`). -/
def loadedContext (s : ChatSession) (summary : String) (updatedAt : Int) :
    Option JsValue :=
  loadedField s summary updatedAt "context"

/-- A concrete one-message session for instantiations. -/
def msg0 : ChatMessage :=
  { id := "m1", type := "user", content := "hello", timestamp := 0 }

/-- A concrete session holding `msg0`. -/
def s0 : ChatSession :=
  { id := "session1", messages := [msg0], context := {}, createdAt := 0,
    updatedAt := 0 }

/-! ## Error propagation of the persistence layer (ContextStore / ChatService) -/

/-- `ContextStore.storeConversationHistory` (part_003 lines 381-408) seen from
its caller: the settled outcome of the file-system write is `writeResult`; the
catch block logs and RE-THROWS (`throw error`), so the store's failure
propagates. -/
def storeConversationHistory (writeResult : Except String Unit) :
    Except String Unit :=
  match writeResult with
  | .ok _ => .ok ()
  | .error e => .error e

/-- `ChatService.saveSession` (part_002 lines 573-592) seen from its caller:
the call to `storeConversationHistory` sits inside a try whose catch only
logs (`console.error('Failed to save chat session:', error)`) and does not
re-throw, so `saveSession` completes normally whatever the store did. -/
def chatSaveSession (writeResult : Except String Unit) : Except String Unit :=
  match storeConversationHistory writeResult with
  | .ok _ => .ok ()
  | .error _ => .ok ()

/-- Operations issued against the persistence collaborator. -/
inductive StoreOp where
  | write : String → StoreOp
deriving DecidableEq, Repr

/-- `ChatService.generateSessionTitle` (part_002 lines 1204-1211); the locale
date rendering enters as a parameter, and the source's `split('/')` on the
active file's string form is modelled on the path component. -/
def generateSessionTitle (ctx : ChatContext) (localeDate : String) : String :=
  match ctx.activeFile with
  | some u => "Chat about " ++ ((u.path.splitOn "/").getLastD "")
  | none => "Chat Session - " ++ localeDate

/-- `ChatService.createSession` (part_002 lines 555-567): the session is built
in memory, registered in `activeSessions`, and returned; the trace of
persistence operations it issues is empty — nothing is written. -/
def createSession (id : String) (ctx : ChatContext) (now : Int)
    (localeDate : String) : ChatSession × List StoreOp :=
  ({ id := id, messages := [], context := ctx, createdAt := now,
     updatedAt := now, title := some (generateSessionTitle ctx localeDate) }, [])

/-! # Claim theorems -/

/-! ## C1 — timeouts and the retry predicates -/

/-- C1 (counterexample): the claim states that the retry predicate returns
false for every timeout error in BOTH services.  In HuggingFaceService the
timeout failure produced by the service's own wrapper — here for the
chat-completion operation under a configured timeout of 5020 ms — is judged
RETRYABLE (the rendered duration contains the retryable substring 502), so the
same model is retried rather than the chain moving on. -/
theorem C1_hf_timeout_retried_counterexample :
    hfShouldRetry
      (timeoutMessage "Chat completion with HuggingFaceH4/zephyr-7b-beta" 5020) = true := by
  decide

/-- C1 (amended): in OllamaService the claim holds — `shouldRetry` returns
false for every error whose lower-cased message contains `timed out`, which is
the form of every timeout rejection, so a timeout is never retried on the same
model.  In HuggingFaceService, however, timeouts are not excluded from the
retryable class: `shouldRetry` returns true for any message containing
`timeout` (and, per the counterexample, can also retry the service's own
generated timeout message). -/
theorem C1_timeout_not_retried_amended (m : String)
    (h : jsIncludes (jsToLower m) "timed out" = true) :
    ollamaShouldRetry m = false ∧ hfShouldRetry "connection timeout" = true := by
  refine ⟨?_, by decide⟩
  simp [ollamaShouldRetry, h]

/-- Witness for C1: the Ollama retry predicate applied to a concrete timeout
message. -/
theorem C1_timeout_not_retried_amended_witness :
    ollamaShouldRetry "Code analysis timed out after 30000ms" = false ∧
    hfShouldRetry "connection timeout" = true :=
  C1_timeout_not_retried_amended "Code analysis timed out after 30000ms" (by decide)

/-! ## C2 — authentication and rate-limit failures -/

/-- C2 (counterexample): the claim states that an authentication failure sets
the circuit breaker unavailable in both services.  In OllamaService the
authentication branch of the `analyzeCode` error handler throws its
descriptive error WITHOUT calling `markApiUnavailable`: after a 401 failure
the availability flag is still true. -/
theorem C2_ollama_auth_no_trip_counterexample :
    (ollamaAnalyzeCodeCatch ⟨true, 0⟩ 999 "https://gpu1.oginnovation.com:11433/v1" "s"
        30000 "Request failed with status code 401 Unauthorized").1.isApiAvailable = true ∧
    (ollamaAnalyzeCodeCatch ⟨true, 0⟩ 999 "https://gpu1.oginnovation.com:11433/v1" "s"
        30000 "Request failed with status code 401 Unauthorized").2 =
      "Ollama server requires authentication. Please configure your API key in settings." := by
  decide

/-- C2 (amended): in HuggingFaceService the claim holds — when the attempted
model fails with an authentication error the chain aborts with exactly one
model attempted, the breaker is set unavailable with the failure time
recorded, and a descriptive error is thrown; likewise for a rate-limit error.
In OllamaService an authentication failure (message containing 401 and not
classified as timeout or connection error) yields the descriptive error but
leaves the breaker unchanged, and its `chatCompletion` never trips the breaker
on any RPC failure: the breaker state after the call is whatever the
entry check produced. -/
theorem C2_fatal_errors_amended {α : Type} (st : CircuitBreaker) (now : Int)
    (attempt : String → Except String α) (m : String) (rest : List String)
    (e : String) (hm : attempt m = Except.error e) :
    (hfIsAuthError e = true →
      hfTryModels st now attempt (m :: rest) =
        (markApiUnavailable now, Except.error hfAuthErrorText, 1)) ∧
    (hfIsAuthError e = false → hfIsRateLimitError e = true →
      hfTryModels st now attempt (m :: rest) =
        (markApiUnavailable now, Except.error hfRateLimitErrorText, 1)) ∧
    (∀ (st2 : CircuitBreaker) (now2 dt : Int) (burl ts msg : String),
      jsIncludes msg "timed out" = false → jsIncludes msg "ECONNREFUSED" = false →
      jsIncludes msg "fetch failed" = false → jsIncludes msg "401" = true →
      (ollamaAnalyzeCodeCatch st2 now2 burl ts dt msg).1 = st2 ∧
      (ollamaAnalyzeCodeCatch st2 now2 burl ts dt msg).2 =
        "Ollama server requires authentication. Please configure your API key in settings.") ∧
    (∀ (st2 : CircuitBreaker) (retryAfterMs now2 : Int) (e2 : String),
      (ollamaChatCompletion (α := α) st2 retryAfterMs now2 (Except.error e2)).1 =
        (shouldAttemptApiCall st2 retryAfterMs now2).1) := by
  refine ⟨fun h => ?_, fun h1 h2 => ?_, fun st2 now2 dt burl ts msg h1 h2 h3 h4 => ?_,
    fun st2 retryAfterMs now2 e2 => ?_⟩
  · simp [hfTryModels, hm, h]
  · simp [hfTryModels, hm, h1, h2]
  · constructor <;> simp [ollamaAnalyzeCodeCatch, h1, h2, h3, h4]
  · unfold ollamaChatCompletion
    by_cases h : (shouldAttemptApiCall st2 retryAfterMs now2).2 <;> simp [h]

/-- Witness for C2: a 401 failure on the first model of the HuggingFace chain
trips the breaker at the failure time and stops after one attempt. -/
theorem C2_fatal_errors_amended_witness :
    hfTryModels (⟨true, 0⟩ : CircuitBreaker) 777
      (fun _ => (Except.error "Request failed with status code 401" : Except String Nat))
      ["HuggingFaceH4/zephyr-7b-beta", "HuggingFaceH4/zephyr-7b-alpha"] =
      (markApiUnavailable 777, Except.error hfAuthErrorText, 1) :=
  (C2_fatal_errors_amended (⟨true, 0⟩ : CircuitBreaker) 777
    (fun _ => (Except.error "Request failed with status code 401" : Except String Nat))
    "HuggingFaceH4/zephyr-7b-beta" ["HuggingFaceH4/zephyr-7b-alpha"]
    "Request failed with status code 401" rfl).1 (by decide)

/-! ## C3 — circuit breaker recovery -/

/-- C3: the breaker returns from unavailable to available in exactly the ways
the claim states: after every successful `chatCompletion` the availability
flag is true, a false-to-true transition of the flag can only happen when
`now - lastFailureTime > retryAfterMs` holds at call time (the lazy check —
there is no other resetting code path in the call), and when that bound holds
the call does flip the flag back. -/
theorem C3_circuit_breaker_transitions {α : Type} (st : CircuitBreaker)
    (retryAfterMs now : Int) (rpc : Except String α) :
    (∀ r : α, (ollamaChatCompletion st retryAfterMs now rpc).2 = Except.ok r →
      (ollamaChatCompletion st retryAfterMs now rpc).1.isApiAvailable = true) ∧
    (st.isApiAvailable = false →
      (ollamaChatCompletion st retryAfterMs now rpc).1.isApiAvailable = true →
      now - st.lastFailureTime > retryAfterMs) ∧
    (st.isApiAvailable = false → now - st.lastFailureTime > retryAfterMs →
      (ollamaChatCompletion st retryAfterMs now rpc).1.isApiAvailable = true) := by
  unfold ollamaChatCompletion shouldAttemptApiCall
  by_cases hav : st.isApiAvailable <;>
    by_cases ht : now - st.lastFailureTime > retryAfterMs <;>
      cases rpc <;> simp [hav, ht]

/-- Witness for C3: a successful call made one millisecond after the
retry-after window ends available, and the transition implies the elapse
bound. -/
theorem C3_circuit_breaker_witness :
    (ollamaChatCompletion (⟨false, 0⟩ : CircuitBreaker) 60000 60001
      (Except.ok (42 : Nat))).1.isApiAvailable = true ∧
    (60001 : Int) - (0 : Int) > 60000 :=
  ⟨(C3_circuit_breaker_transitions (⟨false, 0⟩ : CircuitBreaker) 60000 60001
      (Except.ok (42 : Nat))).1 42 rfl,
   (C3_circuit_breaker_transitions (⟨false, 0⟩ : CircuitBreaker) 60000 60001
      (Except.ok (42 : Nat))).2.1 rfl rfl⟩

/-! ## C7 — request clamping -/

/-- C7: for every request, the temperature actually sent never exceeds 0.8 and
the max-tokens value never exceeds the fixed ceiling (1500 for Ollama, 500 for
HuggingFace); a requested temperature of 1.5 is sent as 0.8; absent values
default to 0.7 and 1000 before clamping. -/
theorem C7_request_clamping (t m : Option ℚ) :
    ollamaSentTemperature t ≤ 0.8 ∧ hfSentTemperature t ≤ 0.8 ∧
    ollamaSentMaxTokens m ≤ 1500 ∧ hfSentMaxTokens m ≤ 500 ∧
    ollamaSentTemperature (some 1.5) = 0.8 ∧ hfSentTemperature (some 1.5) = 0.8 ∧
    jsNumOr none (0.7 : ℚ) = 0.7 ∧ jsNumOr none (1000 : ℚ) = 1000 ∧
    ollamaSentTemperature none = 0.7 ∧ ollamaSentMaxTokens none = 1000 := by
  refine ⟨min_le_right _ _, min_le_right _ _, min_le_right _ _, min_le_right _ _,
    ?_, ?_, rfl, rfl, ?_, ?_⟩ <;>
    norm_num [ollamaSentTemperature, hfSentTemperature, ollamaSentMaxTokens, jsNumOr]

/-! ## C9 — persistence error propagation -/

/-- C9 (counterexample): the claim states that a throwing store write makes the
surrounding save operation raise.  It does not: with the write settled as a
hard I/O failure, `ChatService.saveSession` completes normally — its catch
block swallows the store's re-thrown error. -/
theorem C9_save_swallows_counterexample :
    chatSaveSession (Except.error "EACCES: disk unwritable") = Except.ok () := rfl

/-- C9 (amended): `ContextStore.storeConversationHistory` does re-throw the
store's write failure to its caller, but `ChatService.saveSession` catches and
swallows it (logging only), so the save/process operation completes normally;
and `ChatService.createSession` registers the session in memory without
attempting any persistence write at all. -/
theorem C9_persistence_propagation_amended (e id localeDate : String)
    (ctx : ChatContext) (now : Int) :
    storeConversationHistory (Except.error e) = Except.error e ∧
    chatSaveSession (Except.error e) = Except.ok () ∧
    (createSession id ctx now localeDate).2 = [] :=
  ⟨rfl, rfl, rfl⟩

/-! ## C10 — the timeout wrapper re-awaits one settled operation -/

/-- C10: the wrapper never re-executes its underlying operation — it re-awaits
the one settled outcome it was given.  When that outcome is a failure judged
retryable, every retry observes the identical failure, the final outcome is
exactly that single underlying failure, and the retries change only the
number of backoff delays performed (`maxRetries - retryCount` of them); a
settled success returns immediately with no delays. -/
theorem C10_withTimeout_single_settled_outcome {α : Type} (cfg : RetryConfig)
    (sr : String → Bool) (e : String) (t : ℚ) (rc : Nat)
    (h1 : rc ≤ cfg.maxRetries) (h2 : sr e = true) :
    (withTimeout cfg sr (Except.error e : Except String α) t rc).1 = Except.error e ∧
    (withTimeout cfg sr (Except.error e : Except String α) t rc).2.length =
      cfg.maxRetries - rc ∧
    (∀ (v : α) (t2 : ℚ) (rc2 : Nat), withTimeout cfg sr (Except.ok v) t2 rc2 = (Except.ok v, [])) := by
  have hok : ∀ (v : α) (t2 : ℚ) (rc2 : Nat),
      withTimeout cfg sr (Except.ok v) t2 rc2 = (Except.ok v, []) := by
    intro v t2 rc2
    rw [withTimeout]
  have main : ∀ (n : Nat) (t2 : ℚ) (rc2 : Nat), rc2 ≤ cfg.maxRetries →
      cfg.maxRetries - rc2 = n →
      (withTimeout cfg sr (Except.error e : Except String α) t2 rc2).1 = Except.error e ∧
      (withTimeout cfg sr (Except.error e : Except String α) t2 rc2).2.length = n := by
    intro n
    induction n with
    | zero =>
        intro t2 rc2 hle hn
        have hge : ¬ rc2 < cfg.maxRetries := by omega
        rw [withTimeout]
        simp [hge]
    | succ n ih =>
        intro t2 rc2 hle hn
        have hlt : rc2 < cfg.maxRetries := by omega
        obtain ⟨ih1, ih2⟩ := ih (min (t2 * 1.5) 60000) (rc2 + 1) (by omega) (by omega)
        rw [withTimeout]
        simp [hlt, h2, ih1, ih2]
  exact ⟨(main (cfg.maxRetries - rc) t rc h1 rfl).1,
    (main (cfg.maxRetries - rc) t rc h1 rfl).2, hok⟩

/-- Witness for C10: a settled 502 failure under the Ollama default retry count
of 2 yields exactly that failure after exactly two backoff delays. -/
theorem C10_withTimeout_witness :
    (withTimeout ⟨2, 1000⟩ hfShouldRetry
      (Except.error "502 Bad Gateway" : Except String Nat) 30000 0).1 =
      Except.error "502 Bad Gateway" ∧
    (withTimeout ⟨2, 1000⟩ hfShouldRetry
      (Except.error "502 Bad Gateway" : Except String Nat) 30000 0).2.length = 2 - 0 :=
  ⟨(C10_withTimeout_single_settled_outcome ⟨2, 1000⟩ hfShouldRetry "502 Bad Gateway"
      30000 0 (by omega) (by decide)).1,
   (C10_withTimeout_single_settled_outcome ⟨2, 1000⟩ hfShouldRetry "502 Bad Gateway"
      30000 0 (by omega) (by decide)).2.1⟩

/-! ## C4, C5, C6 — processMessage and history trimming -/

/-- Length of a trimmed history: above the bound the trim yields exactly
`maxHistoryLength` messages, otherwise the list is untouched. -/
theorem trimSessionHistory_length (l : List ChatMessage) :
    (trimSessionHistory l).length =
      if l.length > maxHistoryLength then maxHistoryLength else l.length := by
  by_cases h : l.length > maxHistoryLength
  · cases l with
    | nil => simp [maxHistoryLength] at h
    | cons a l' =>
        unfold trimSessionHistory
        rw [if_pos h, if_pos h]
        simp only [List.length_cons, List.length_drop]
        simp only [List.length_cons, maxHistoryLength] at h ⊢
        omega
  · unfold trimSessionHistory
    rw [if_neg h, if_neg h]

/-- Membership in a drop of an append, provided the drop stays inside the
first part. -/
theorem mem_drop_append (xs ys : List ChatMessage) (u : ChatMessage)
    (hu : u ∈ ys) (k : Nat) (hk : k ≤ xs.length) : u ∈ (xs ++ ys).drop k := by
  rw [List.drop_append_of_le_length hk]
  exact List.mem_append_right _ hu

/-- A message freshly appended at one of the two final positions survives the
trim. -/
theorem mem_trimSessionHistory_append (xs : List ChatMessage) (u a : ChatMessage) :
    u ∈ trimSessionHistory (xs ++ [u, a]) := by
  by_cases h : (xs ++ [u, a]).length > maxHistoryLength
  · cases xs with
    | nil => simp [maxHistoryLength] at h
    | cons x xs' =>
        unfold trimSessionHistory
        rw [if_pos h]
        apply List.mem_cons_of_mem
        have hk : ((x :: xs') ++ [u, a]).length - (maxHistoryLength - 1) ≤
            (x :: xs').length := by
          simp only [List.length_cons, List.length_append, List.length_nil,
            maxHistoryLength]
          omega
        exact mem_drop_append (x :: xs') [u, a] u (by simp) _ hk
  · unfold trimSessionHistory
    rw [if_neg h]
    simp

/-- C4 (counterexample): the claim bounds the history after every completed
`processMessage` call, including the caught-error outcome.  Starting from a
session already holding the maximum of 50 messages, a call whose downstream
processing fails appends the user message and the error message without
trimming: the history afterwards has 52 messages, exceeding the maximum. -/
theorem C4_error_path_exceeds_counterexample :
    (processMessage fullSession "hi" {} "u1" 1
      (fun _ => Except.error "downstream failure") "e1" 2).1.messages.length = 52 ∧
    maxHistoryLength = 50 := by
  constructor
  · decide
  · rfl

/-- C4 (amended): after every SUCCESSFUL `processMessage` call the history
length is at most the configured maximum of 50, and whenever trimming occurs
the result keeps the element at index 0 followed by the most recent
`maxHistoryLength - 1` messages in their original order, with exactly
`maxHistoryLength` messages kept; in the caught-error outcome, however, the
user and error messages are appended WITHOUT trimming, so the history grows
to its previous length plus two and can exceed the maximum. -/
theorem C4_history_bound_amended :
    (∀ (session : ChatSession) (content : String) (ctx : ChatContext)
        (uid : String) (now : Int) (a : ChatMessage) (eid : String) (en : Int),
        (processMessage session content ctx uid now (fun _ => Except.ok a)
          eid en).1.messages.length ≤ maxHistoryLength) ∧
    (∀ (first : ChatMessage) (rest : List ChatMessage),
        (first :: rest).length > maxHistoryLength →
        trimSessionHistory (first :: rest) =
          first :: (first :: rest).drop
            ((first :: rest).length - (maxHistoryLength - 1)) ∧
        (trimSessionHistory (first :: rest)).length = maxHistoryLength) ∧
    (∀ (session : ChatSession) (content : String) (ctx : ChatContext)
        (uid : String) (now : Int) (e : String) (eid : String) (en : Int),
        (processMessage session content ctx uid now (fun _ => Except.error e)
          eid en).1.messages.length = session.messages.length + 2) := by
  refine ⟨fun session content ctx uid now a eid en => ?_,
    fun first rest h => ⟨?_, ?_⟩,
    fun session content ctx uid now e eid en => ?_⟩
  · simp only [processMessage]
    rw [trimSessionHistory_length]
    by_cases hc : ((session.messages ++ [mkUserMessage uid content now ctx]) ++
        [a]).length > maxHistoryLength
    · rw [if_pos hc]
    · rw [if_neg hc]
      omega
  · unfold trimSessionHistory
    rw [if_pos h]
  · rw [trimSessionHistory_length, if_pos h]
  · simp [processMessage]

/-- Witness for C4: trimming a concrete 51-message history keeps the first
message plus the 49 most recent ones, 50 in total. -/
theorem C4_history_bound_amended_witness :
    trimSessionHistory
        (dummyMessage 0 :: (List.range 50).map (fun i => dummyMessage (i + 1))) =
      dummyMessage 0 ::
        (dummyMessage 0 :: (List.range 50).map (fun i => dummyMessage (i + 1))).drop
          ((dummyMessage 0 ::
            (List.range 50).map (fun i => dummyMessage (i + 1))).length -
            (maxHistoryLength - 1)) ∧
    (trimSessionHistory
        (dummyMessage 0 :: (List.range 50).map (fun i => dummyMessage (i + 1)))).length =
      maxHistoryLength :=
  C4_history_bound_amended.2.1 (dummyMessage 0)
    ((List.range 50).map (fun i => dummyMessage (i + 1))) (by decide)

/-- C5: on every input where the downstream call (command handler,
conversational path or RPC client) fails, `processMessage` does not raise: the
failure is converted into an assistant message whose content explains the
error and whose `metadata.error` field records the raw error text, that
message is appended as the last element of the session history, and it is the
value returned. -/
theorem C5_downstream_failure_converted (session : ChatSession) (content : String)
    (ctx : ChatContext) (uid : String) (now : Int) (e : String) (eid : String)
    (en : Int) :
    (processMessage session content ctx uid now (fun _ => Except.error e)
      eid en).2 = mkErrorMessage eid e en ctx ∧
    (mkErrorMessage eid e en ctx).type = "assistant" ∧
    (mkErrorMessage eid e en ctx).content =
      "I apologize, but I encountered an error: " ++ e ∧
    (mkErrorMessage eid e en ctx).metadata =
      some { error := some e, confidence := none } ∧
    (processMessage session content ctx uid now (fun _ => Except.error e)
      eid en).1.messages.getLast? = some (mkErrorMessage eid e en ctx) := by
  refine ⟨rfl, rfl, rfl, rfl, ?_⟩
  simp only [processMessage]
  exact List.getLast?_concat _

/-- C6: the user message carrying the inbound text is appended to the session
before any command or conversational processing runs — the downstream call
only ever sees the session whose history already ends with that user
message — and it remains in the history whatever the outcome: it is a member
after a successful call (surviving the trim) and, when downstream processing
fails, the history is exactly the old history followed by the user message
and the error message. -/
theorem C6_user_message_appended_first (session : ChatSession) (content : String)
    (ctx : ChatContext) (uid : String) (now : Int) (eid : String) (en : Int) :
    (∀ a : ChatMessage, mkUserMessage uid content now ctx ∈
        (processMessage session content ctx uid now (fun _ => Except.ok a)
          eid en).1.messages) ∧
    (∀ e : String,
        (processMessage session content ctx uid now (fun _ => Except.error e)
          eid en).1.messages =
          session.messages ++
            [mkUserMessage uid content now ctx, mkErrorMessage eid e en ctx]) ∧
    (∀ f g : ChatSession → Except String ChatMessage,
        (∀ s2 : ChatSession,
          s2.messages = session.messages ++ [mkUserMessage uid content now ctx] →
          f s2 = g s2) →
        processMessage session content ctx uid now f eid en =
          processMessage session content ctx uid now g eid en) := by
  refine ⟨fun a => ?_, fun e => ?_, fun f g hfg => ?_⟩
  · simp only [processMessage]
    rw [List.append_assoc]
    exact mem_trimSessionHistory_append session.messages
      (mkUserMessage uid content now ctx) a
  · simp [processMessage]
  · simp only [processMessage]
    rw [hfg _ rfl]

/-- Witness for C6: with a concrete failing downstream call the history is the
old history plus the user and error messages, and the downstream-invariance
clause applies to a constant downstream function. -/
theorem C6_user_message_appended_first_witness :
    (processMessage s0 "hello again" {} "u2" 7
      (fun _ => Except.error "boom") "e2" 8).1.messages =
      s0.messages ++ [mkUserMessage "u2" "hello again" 7 {},
        mkErrorMessage "e2" "boom" 8 {}] ∧
    processMessage s0 "hello again" {} "u2" 7
        (fun _ => Except.error "boom") "e2" 8 =
      processMessage s0 "hello again" {} "u2" 7
        (fun _ => Except.error "boom") "e2" 8 :=
  ⟨(C6_user_message_appended_first s0 "hello again" {} "u2" 7 "e2" 8).2.1 "boom",
   (C6_user_message_appended_first s0 "hello again" {} "u2" 7 "e2" 8).2.2
     (fun _ => Except.error "boom") (fun _ => Except.error "boom")
     (fun _ _ => rfl)⟩

/-! ## C8 — session persistence round trip -/

/-- A serialized `vscode.Uri` is rebuilt exactly by the reviver. -/
theorem jsonRoundTrip_encodeUri (u : MUri) :
    jsonRevive (jsonReplace (encodeUri u)) = encodeUri u := rfl

/-- A serialized array of `vscode.Uri` values is rebuilt exactly. -/
theorem jsonRoundTrip_uriList (l : List MUri) :
    jsonReviveList (jsonReplaceList (l.map encodeUri)) = l.map encodeUri := by
  induction l with
  | nil => rfl
  | cons u l ih =>
      simp only [List.map_cons, jsonReplaceList, jsonReviveList, ih]
      rw [jsonRoundTrip_encodeUri]


/-- One serialization-then-parse step on a string value. -/
theorem jsonRoundTrip_jstr (s : String) :
    jsonRevive (jsonReplace (JsValue.jstr s)) = JsValue.jstr s := rfl

/-- One serialization-then-parse step on a `Date`: it comes back as the ISO
string. -/
theorem jsonRoundTrip_jdate (t : Int) :
    jsonRevive (jsonReplace (JsValue.jdate t)) =
      JsValue.jstr (dateToISOString t) := rfl

/-- One serialization-then-parse step on an array recurses elementwise. -/
theorem jsonRoundTrip_jarr (xs : List JsValue) :
    jsonRevive (jsonReplace (JsValue.jarr xs)) =
      JsValue.jarr (jsonReviveList (jsonReplaceList xs)) := rfl

/-- Serialization then parse distributes over the fields of an object. -/
theorem jsonRoundTrip_fields_cons (k : String) (v : JsValue)
    (fs : List (String × JsValue)) :
    jsonReviveFields (jsonReplaceFields ((k, v) :: fs)) =
      (k, jsonRevive (jsonReplace v)) :: jsonReviveFields (jsonReplaceFields fs) := rfl

/-- Serialization then parse on an empty field list. -/
theorem jsonRoundTrip_fields_nil :
    jsonReviveFields (jsonReplaceFields []) = [] := rfl

/-- Serialization then parse on a plain object that does not come back tagged
as a `vscode.Uri` stays a plain object with round-tripped fields. -/
theorem jsonRoundTrip_jobj_of_not_uri (fs : List (String × JsValue))
    (h : isUriTag (jsonLookup (jsonReviveFields (jsonReplaceFields fs)) "$type") = false) :
    jsonRevive (jsonReplace (JsValue.jobj fs)) =
      JsValue.jobj (jsonReviveFields (jsonReplaceFields fs)) := by
  have h1 : jsonReplace (JsValue.jobj fs) = JsValue.jobj (jsonReplaceFields fs) := rfl
  rw [h1]
  simp only [jsonRevive]
  simp [h]

/-- A serialized `ChatContext` is rebuilt exactly: its only non-primitive
members are `vscode.Uri` values, which the reviver restores. -/
theorem jsonRoundTrip_encodeContext (c : ChatContext) :
    jsonRevive (jsonReplace (encodeContext c)) = encodeContext c := by
  obtain ⟨af, sel, wf⟩ := c
  cases af <;> cases sel <;> cases wf <;>
  · simp only [encodeContext, encodeOptField, Option.map_some', Option.map_none',
      List.cons_append, List.nil_append, List.append_nil]
    rw [jsonRoundTrip_jobj_of_not_uri]
    · simp only [jsonRoundTrip_fields_cons, jsonRoundTrip_fields_nil,
        jsonRoundTrip_encodeUri, jsonRoundTrip_jstr, jsonRoundTrip_jarr,
        jsonRoundTrip_uriList]
    · simp only [jsonRoundTrip_fields_cons, jsonRoundTrip_fields_nil]
      simp [jsonLookup, isUriTag, List.find?]

/-- Erasing dates leaves a string unchanged. -/
theorem eraseDates_jstr (s : String) :
    eraseDates (JsValue.jstr s) = JsValue.jstr s := rfl

/-- Erasing dates turns a `Date` into its ISO string. -/
theorem eraseDates_jdate (t : Int) :
    eraseDates (JsValue.jdate t) = JsValue.jstr (dateToISOString t) := rfl

/-- Erasing dates recurses elementwise through an array. -/
theorem eraseDates_jarr (xs : List JsValue) :
    eraseDates (JsValue.jarr xs) = JsValue.jarr (eraseDatesList xs) := rfl

/-- Erasing dates recurses fieldwise through an object. -/
theorem eraseDates_jobj (fs : List (String × JsValue)) :
    eraseDates (JsValue.jobj fs) = JsValue.jobj (eraseDatesFields fs) := rfl

/-- Erasing dates distributes over the fields of an object. -/
theorem eraseDates_fields_cons (k : String) (v : JsValue)
    (fs : List (String × JsValue)) :
    eraseDatesFields ((k, v) :: fs) = (k, eraseDates v) :: eraseDatesFields fs := rfl

/-- Erasing dates on an empty field list. -/
theorem eraseDates_fields_nil : eraseDatesFields [] = [] := rfl

/-- Erasing dates does not change an encoded `vscode.Uri`. -/
theorem eraseDates_encodeUri (u : MUri) :
    eraseDates (encodeUri u) = encodeUri u := rfl

/-- Erasing dates does not change an encoded list of `vscode.Uri` values. -/
theorem eraseDates_uriList (l : List MUri) :
    eraseDatesList (l.map encodeUri) = l.map encodeUri := by
  induction l with
  | nil => rfl
  | cons u l ih =>
      show eraseDates (encodeUri u) :: eraseDatesList (l.map encodeUri) = _
      rw [eraseDates_encodeUri, ih, List.map_cons]

/-- Erasing dates does not change an encoded `ChatContext` (it holds no
`Date`). -/
theorem eraseDates_encodeContext (c : ChatContext) :
    eraseDates (encodeContext c) = encodeContext c := by
  obtain ⟨af, sel, wf⟩ := c
  cases af <;> cases sel <;> cases wf <;>
  · simp only [encodeContext, encodeOptField, Option.map_some', Option.map_none',
      List.cons_append, List.nil_append, List.append_nil]
    simp only [eraseDates_jobj, eraseDates_fields_cons, eraseDates_fields_nil,
      eraseDates_encodeUri, eraseDates_jstr, eraseDates_jarr, eraseDates_uriList]

/-- A serialized `ChatMessageMetadata` is rebuilt exactly (strings and numbers
only). -/
theorem jsonRoundTrip_encodeMetadata (md : ChatMessageMetadata) :
    jsonRevive (jsonReplace (encodeMetadata md)) = encodeMetadata md := by
  obtain ⟨err, conf⟩ := md
  cases err <;> cases conf <;>
  · simp only [encodeMetadata, encodeOptField, Option.map_some', Option.map_none',
      List.cons_append, List.nil_append, List.append_nil]
    rw [jsonRoundTrip_jobj_of_not_uri]
    · simp only [jsonRoundTrip_fields_cons, jsonRoundTrip_fields_nil,
        jsonRoundTrip_jstr]
      try rfl
    · simp only [jsonRoundTrip_fields_cons, jsonRoundTrip_fields_nil]
      simp [jsonLookup, isUriTag, List.find?]

/-- Erasing dates does not change an encoded `ChatMessageMetadata`. -/
theorem eraseDates_encodeMetadata (md : ChatMessageMetadata) :
    eraseDates (encodeMetadata md) = encodeMetadata md := by
  obtain ⟨err, conf⟩ := md
  cases err <;> cases conf <;>
  · simp only [encodeMetadata, encodeOptField, Option.map_some', Option.map_none',
      List.cons_append, List.nil_append, List.append_nil]
    simp only [eraseDates_jobj, eraseDates_fields_cons, eraseDates_fields_nil,
      eraseDates_jstr]
    try rfl

/-- Round trip of one serialized `ChatMessage`: everything is rebuilt exactly
except the timestamp, whose `Date` comes back as its ISO string — the round
trip equals `eraseDates` on the encoded message. -/
theorem jsonRoundTrip_encodeMessage (m : ChatMessage) :
    jsonRevive (jsonReplace (encodeMessage m)) = eraseDates (encodeMessage m) := by
  obtain ⟨id, ty, co, ts, ctx, md⟩ := m
  cases ctx <;> cases md <;>
  · simp only [encodeMessage, encodeOptField, Option.map_some', Option.map_none',
      List.cons_append, List.nil_append, List.append_nil]
    rw [jsonRoundTrip_jobj_of_not_uri]
    · simp only [jsonRoundTrip_fields_cons, jsonRoundTrip_fields_nil,
        jsonRoundTrip_jstr, jsonRoundTrip_jdate, jsonRoundTrip_encodeContext,
        jsonRoundTrip_encodeMetadata, eraseDates_jobj, eraseDates_fields_cons,
        eraseDates_fields_nil, eraseDates_jstr, eraseDates_jdate,
        eraseDates_encodeContext, eraseDates_encodeMetadata]
    · simp only [jsonRoundTrip_fields_cons, jsonRoundTrip_fields_nil]
      simp [jsonLookup, isUriTag, List.find?]

/-- Round trip of the serialized message array. -/
theorem jsonRoundTrip_messageList (msgs : List ChatMessage) :
    jsonReviveList (jsonReplaceList (msgs.map encodeMessage)) =
      eraseDatesList (msgs.map encodeMessage) := by
  induction msgs with
  | nil => rfl
  | cons m msgs ih =>
      show jsonRevive (jsonReplace (encodeMessage m)) ::
          jsonReviveList (jsonReplaceList (msgs.map encodeMessage)) = _
      rw [jsonRoundTrip_encodeMessage, ih]
      rfl

/-- The reloaded history object, field by field. -/
theorem storedHistory_fields (s : ChatSession) (summary : String)
    (updatedAt : Int) :
    storedHistory s summary updatedAt =
      JsValue.jobj
        [("sessionId", JsValue.jstr s.id),
         ("messages", JsValue.jarr (eraseDatesList (s.messages.map encodeMessage))),
         ("context", encodeContext s.context),
         ("summary", JsValue.jstr summary),
         ("createdAt", JsValue.jstr (dateToISOString s.createdAt)),
         ("lastUpdated", JsValue.jstr (dateToISOString updatedAt))] := by
  unfold storedHistory jsonRoundTrip encodeHistory
  rw [jsonRoundTrip_jobj_of_not_uri]
  · simp only [jsonRoundTrip_fields_cons, jsonRoundTrip_fields_nil,
      jsonRoundTrip_jstr, jsonRoundTrip_jdate, jsonRoundTrip_jarr,
      jsonRoundTrip_messageList, jsonRoundTrip_encodeContext]
  · simp only [jsonRoundTrip_fields_cons, jsonRoundTrip_fields_nil]
    simp [jsonLookup, isUriTag, List.find?]

/-- C8 (counterexample): the claim asserts that storing and loading a session
yields an equal session including each message's timestamp.  For the concrete
one-message session `s0` the reloaded message list differs from the saved one:
the message's `Date` timestamp comes back as its ISO string. -/
theorem C8_date_not_revived_counterexample :
    loadedMessages s0 "sum" 5 ≠
      some (JsValue.jarr (s0.messages.map encodeMessage)) := by
  unfold loadedMessages loadedField
  rw [storedHistory_fields]
  simp only [s0, msg0, List.map_cons, List.map_nil, encodeMessage, encodeMetadata,
    encodeOptField, Option.map_none', List.cons_append, List.nil_append,
    List.append_nil, eraseDatesList, eraseDates_jobj, eraseDates_fields_cons,
    eraseDates_fields_nil, eraseDates_jstr, eraseDates_jdate, dateToISOString]
  simp [jsonLookup, List.find?]

/-- C8 (amended): storing then loading a session yields the same messages in
the same order — each message's id, role, content, context (with `vscode.Uri`
values rebuilt exactly by the reviver) and metadata preserved — and the same
context fields; Date-valued fields, however, come back as their ISO-string
renderings rather than `Date` objects: the reloaded message array equals the
saved one with every `Date` replaced by its ISO string. -/
theorem C8_roundtrip_amended (s : ChatSession) (summary : String)
    (updatedAt : Int) :
    loadedMessages s summary updatedAt =
      some (eraseDates (JsValue.jarr (s.messages.map encodeMessage))) ∧
    loadedContext s summary updatedAt = some (encodeContext s.context) := by
  constructor
  · unfold loadedMessages loadedField
    rw [storedHistory_fields]
    simp [jsonLookup, List.find?, eraseDates_jarr]
  · unfold loadedContext loadedField
    rw [storedHistory_fields]
    simp [jsonLookup, List.find?]
